import Mathlib

/-!
# Verification of the squat-analysis engine (`backend/fitness_trainer.py`)

A shallow embedding of the session state machine in `FitnessTrainer` and its
helpers, with theorems settling the specification claims.

Conventions of the embedding:
* Python floats are modelled as exact rationals (`ℚ`); all the engine's
  decisions are order comparisons, faithfully preserved.
* `time.time()` is modelled by an explicit `current_time : ℚ` argument at
  each call that reads the clock.
* The trigonometric geometry kernel (`angle_at_point`, `angle_with_vertical`,
  `offset_angle` in `angle_utils.py`, all `arccos`-based and real-valued) is
  abstracted: the nine angle values it computes from a frame's landmarks are
  passed to `analyze` as a `FrameAngles` record, exactly the values the code
  derives before its first use of them.  Every claim under study quantifies
  over these angle values, never over the trigonometry itself.
* `np.std` (used only by the form score) is the real square root of the
  population variance, hence the summary builder lives over `ℝ` where the
  code computes with floats.
-/

namespace SquatTrainer

/-- `models.SquatState`: the three phases (`s1` standing, `s2` transition,
`s3` full depth). -/
inductive SquatState where
  | s1Normal
  | s2Transition
  | s3Pass
deriving DecidableEq

/-- `SquatState.value`: the wire string of each phase, used in the
`state_sequence` history list. -/
def SquatState.value : SquatState → String
  | .s1Normal => "s1"
  | .s2Transition => "s2"
  | .s3Pass => "s3"

/-- `models.FeedbackType`. -/
inductive FeedbackType where
  | none
  | ready
  | bendForward
  | bendBackwards
  | lowerHips
  | kneeOverToes
  | deepSquat
  | frontalWarning
deriving DecidableEq

/-- `FeedbackType.value`: wire strings, used as keys of the feedback
histogram. -/
def FeedbackType.value : FeedbackType → String
  | .none => "none"
  | .ready => "ready"
  | .bendForward => "bend_forward"
  | .bendBackwards => "bend_backwards"
  | .lowerHips => "lower_hips"
  | .kneeOverToes => "knee_over_toes"
  | .deepSquat => "deep_squat"
  | .frontalWarning => "frontal_warning"

/-- `fitness_trainer.ThresholdConfig` (lines 33-60). -/
structure ThresholdConfig where
  state_s1_max : ℚ := 32
  state_s2_min : ℚ := 35
  state_s2_max : ℚ := 65
  state_s3_min : ℚ := 75
  state_s3_max : ℚ := 95
  hip_vertical_min : ℚ := 20
  hip_vertical_max : ℚ := 45
  lower_hips_min : ℚ := 50
  lower_hips_max : ℚ := 80
  knee_over_toes : ℚ := 30
  deep_squat : ℚ := 95
  offset_thresh : ℚ := 45
  inactive_thresh : ℚ := 15
  visibility_thresh : ℚ := 1/2
  boundary_margin : ℚ := 3/100
  frames_required : ℕ := 3
deriving DecidableEq

/-- `BEGINNER_CONFIG` (lines 64-77). -/
def BEGINNER_CONFIG : ThresholdConfig :=
  { state_s1_max := 35
    state_s2_min := 38
    state_s2_max := 68
    state_s3_min := 72
    state_s3_max := 98
    hip_vertical_min := 18
    hip_vertical_max := 48
    lower_hips_min := 48
    lower_hips_max := 82
    knee_over_toes := 35
    deep_squat := 98
    inactive_thresh := 20 }

/-- `PRO_CONFIG` (lines 79-92). -/
def PRO_CONFIG : ThresholdConfig :=
  { state_s1_max := 32
    state_s2_min := 35
    state_s2_max := 65
    state_s3_min := 75
    state_s3_max := 95
    hip_vertical_min := 20
    hip_vertical_max := 45
    lower_hips_min := 50
    lower_hips_max := 80
    knee_over_toes := 30
    deep_squat := 95
    inactive_thresh := 15 }

/-- One pose landmark: normalized position and visibility confidence
(`models.PoseLandmark`; the unused depth `z` is omitted). -/
structure Landmark where
  x : ℚ
  y : ℚ
  visibility : ℚ
deriving DecidableEq

/-- `angle_utils.LandmarkIndex`: the MediaPipe indices used by the trainer,
paired with the debug names of `_is_full_body_visible` (lines 157-167). -/
def key_indices : List (ℕ × String) :=
  [(11, "L.Shoulder"), (12, "R.Shoulder"),
   (23, "L.Hip"), (24, "R.Hip"),
   (25, "L.Knee"), (26, "R.Knee"),
   (27, "L.Ankle"), (28, "R.Ankle"),
   (0, "Nose")]

/-- The accumulation loop of `_is_full_body_visible` (lines 173-187): the
debug entries contributed by each checked key landmark, in loop order. -/
def missing_of (cfg : ThresholdConfig) (landmarks : List Landmark) :
    List (ℕ × String) → List String
  | [] => []
  | (idx, name) :: rest =>
    (if h : idx < landmarks.length then
      let lm := landmarks.get ⟨idx, h⟩
      if lm.x < cfg.boundary_margin ∨ lm.x > 1 - cfg.boundary_margin ∨
          lm.y < cfg.boundary_margin ∨ lm.y > 1 - cfg.boundary_margin then
        [name ++ "(edge)"]
      else if lm.visibility < cfg.visibility_thresh then
        [name ++ "(vis)"]
      else []
    else [name]) ++ missing_of cfg landmarks rest

/-- `FitnessTrainer._is_full_body_visible` (lines 152-191). -/
def is_full_body_visible (cfg : ThresholdConfig) (landmarks : List Landmark) :
    Bool × String :=
  let missing := missing_of cfg landmarks key_indices
  if missing = [] then (true, "Full body visible")
  else (false, "Missing: " ++ String.intercalate ", " (missing.take 3))

/-- `FitnessTrainer._determine_state` (lines 193-210): phase classification
with hysteresis; `current` is `self.current_state`. -/
def determine_state (cfg : ThresholdConfig) (knee_vertical_angle : ℚ)
    (current : SquatState) : SquatState :=
  if knee_vertical_angle ≤ cfg.state_s1_max then
    .s1Normal
  else if cfg.state_s2_min ≤ knee_vertical_angle ∧
      knee_vertical_angle ≤ cfg.state_s2_max then
    .s2Transition
  else if cfg.state_s3_min ≤ knee_vertical_angle ∧
      knee_vertical_angle ≤ cfg.state_s3_max then
    .s3Pass
  else if knee_vertical_angle > cfg.state_s3_max then
    .s3Pass
  else
    current

/-- `FitnessTrainer._determine_feedback` (lines 212-274); `current` is
`self.current_state` at call time. -/
def determine_feedback (cfg : ThresholdConfig) (current : SquatState)
    (hip_vertical knee_vertical ankle_vertical : ℚ) (is_going_down : Bool) :
    FeedbackType × String × Bool :=
  if ankle_vertical > cfg.knee_over_toes then
    (.kneeOverToes, "Knee falling over toes! Push hips back.", true)
  else if current = .s3Pass ∧ knee_vertical > cfg.deep_squat then
    (.deepSquat, "Too deep! Don't go past parallel.", true)
  else if hip_vertical < cfg.hip_vertical_min then
    (.bendForward, "Lean your torso forward slightly.", false)
  else if hip_vertical > cfg.hip_vertical_max then
    (.bendBackwards, "Straighten your back, lean less forward.", false)
  else if is_going_down ∧ current = .s2Transition ∧
      cfg.lower_hips_min ≤ knee_vertical ∧ knee_vertical ≤ cfg.lower_hips_max then
    (.lowerHips, "Lower your hips more!", false)
  else if current = .s1Normal then
    (.ready, "Ready - squat down!", false)
  else if current = .s3Pass then
    (.none, "Good depth! Now stand up.", false)
  else
    (.none, "", false)

/-- The mutable per-session fields of `FitnessTrainer` (lines 101-129);
the feedback histogram dict is an insertion-ordered association list. -/
structure TrainerState where
  config : ThresholdConfig
  current_state : SquatState
  prev_state : SquatState
  state_sequence : List String
  correct_count : ℕ
  incorrect_count : ℕ
  depth_angles : List ℚ
  min_knee_angle_this_rep : ℚ
  feedback_history : List (String × ℕ)
  start_time : ℚ
  last_active_time : ℚ
  active_seconds : ℚ
  full_body_visible_count : ℕ
  is_ready : Bool
  last_knee_vertical : ℚ
deriving DecidableEq

/-- `FitnessTrainer.__init__` (lines 101-129) with creation time `t0`. -/
def initState (cfg : ThresholdConfig) (t0 : ℚ) : TrainerState :=
  { config := cfg
    current_state := .s1Normal
    prev_state := .s1Normal
    state_sequence := []
    correct_count := 0
    incorrect_count := 0
    depth_angles := []
    min_knee_angle_this_rep := 180
    feedback_history := []
    start_time := t0
    last_active_time := t0
    active_seconds := 0
    full_body_visible_count := 0
    is_ready := false
    last_knee_vertical := 0 }

/-- `FitnessTrainer._update_counters` (lines 276-300). -/
def update_counters (st : TrainerState) : TrainerState :=
  let st :=
    if 3 ≤ st.state_sequence.length then
      if SquatState.s3Pass.value ∈ st.state_sequence then
        let st := { st with correct_count := st.correct_count + 1 }
        if st.min_knee_angle_this_rep < 180 then
          { st with depth_angles := st.depth_angles ++ [st.min_knee_angle_this_rep] }
        else st
      else { st with incorrect_count := st.incorrect_count + 1 }
    else if 0 < st.state_sequence.length then
      { st with incorrect_count := st.incorrect_count + 1 }
    else st
  { st with state_sequence := [], min_knee_angle_this_rep := 180 }

/-- Increment of one key of the insertion-ordered histogram
(`self.feedback_history[key] = self.feedback_history.get(key, 0) + 1`). -/
def hist_inc : List (String × ℕ) → String → List (String × ℕ)
  | [], k => [(k, 1)]
  | (k', v) :: rest, k =>
    if k' = k then (k', v + 1) :: rest else (k', v) :: hist_inc rest k

/-- `FitnessTrainer._record_feedback` (lines 302-306). -/
def record_feedback (st : TrainerState) (ft : FeedbackType) : TrainerState :=
  if ft = .none ∨ ft = .ready then st
  else { st with feedback_history := hist_inc st.feedback_history ft.value }

/-- `models.AnalysisResult` with its field defaults. -/
structure AnalysisResult where
  current_state : SquatState := .s1Normal
  state_sequence : List String := []
  correct_count : ℕ := 0
  incorrect_count : ℕ := 0
  knee_angle : ℚ := 180
  hip_vertical_angle : ℚ := 0
  knee_vertical_angle : ℚ := 0
  ankle_vertical_angle : ℚ := 0
  feedback_type : FeedbackType := .none
  feedback_message : String := ""
  is_severe_feedback : Bool := false
  detected_side : String := "right"
  offset_angle : ℚ := 0
  is_frontal_view : Bool := false
  is_full_body_visible : Bool := false
  is_ready : Bool := false
  inactivity_seconds : ℚ := 0
  debug_info : String := ""
deriving DecidableEq

/-- The values the geometry kernel computes from one frame's landmarks
(`analyze` lines 358-393): the offset angle, the two hip-knee-ankle joint
angles, and the three with-vertical angles of each side.  The kernel itself
(`angle_utils.py`) is pure `arccos` trigonometry and is abstracted here; the
engine only ever compares these values against thresholds. -/
structure FrameAngles where
  offset_angle : ℚ
  left_knee_angle : ℚ
  right_knee_angle : ℚ
  left_hip_vertical : ℚ
  left_knee_vertical : ℚ
  left_ankle_vertical : ℚ
  right_hip_vertical : ℚ
  right_knee_vertical : ℚ
  right_ankle_vertical : ℚ
deriving DecidableEq

/-- The side measurements `analyze` works with after side selection. -/
structure SideAngles where
  side : String
  knee_angle : ℚ
  hip_vertical : ℚ
  knee_vertical : ℚ
  ankle_vertical : ℚ

/-- Side selection (`analyze` lines 370-381): the leg with the smaller
hip-knee-ankle angle wins, ties default to the right side. -/
def select_side (a : FrameAngles) : SideAngles :=
  if a.left_knee_angle < a.right_knee_angle then
    { side := "left", knee_angle := a.left_knee_angle,
      hip_vertical := a.left_hip_vertical, knee_vertical := a.left_knee_vertical,
      ankle_vertical := a.left_ankle_vertical }
  else
    { side := "right", knee_angle := a.right_knee_angle,
      hip_vertical := a.right_hip_vertical, knee_vertical := a.right_knee_vertical,
      ankle_vertical := a.right_ankle_vertical }

/-- Per-rep minimum tracking (`analyze` lines 395-397). -/
def track_min (st : TrainerState) (knee_angle : ℚ) : TrainerState :=
  if knee_angle < st.min_knee_angle_this_rep then
    { st with min_knee_angle_this_rep := knee_angle }
  else st

/-- Inactivity bookkeeping (`analyze` lines 399-417): refresh the last-active
time on movement, reset the counters and the history on timeout, store this
frame's knee-vertical angle.  Returns the updated state and the inactivity
duration reported in the result. -/
def inactivity_step (st : TrainerState) (knee_vertical current_time : ℚ) :
    TrainerState × ℚ :=
  let angle_change := |knee_vertical - st.last_knee_vertical|
  let st :=
    if angle_change > 3 then
      { st with last_active_time := current_time,
                active_seconds := st.active_seconds + 33/1000 }
    else st
  let inactivity := current_time - st.last_active_time
  let st :=
    if inactivity > st.config.inactive_thresh then
      { st with correct_count := 0, incorrect_count := 0, state_sequence := [],
                last_active_time := current_time }
    else st
  ({ st with last_knee_vertical := knee_vertical }, inactivity)

/-- State transition block of `analyze` (lines 423-441): classify, update
phase and bounded history on an actual change, finalize the rep on return
to standing. -/
def transition_step (st : TrainerState) (knee_vertical : ℚ) : TrainerState :=
  let new_state := determine_state st.config knee_vertical st.current_state
  if new_state ≠ st.current_state then
    let st := { st with prev_state := st.current_state, current_state := new_state }
    let st :=
      if new_state = .s2Transition ∨ new_state = .s3Pass then
        if st.state_sequence.length < 3 then
          { st with state_sequence := st.state_sequence ++ [new_state.value] }
        else st
      else st
    if new_state = .s1Normal then update_counters st else st
  else st

/-- `FitnessTrainer.analyze` (lines 308-464): one frame of analysis.
`current_time` models the frame's `time.time()` reading; `angles` the
geometry kernel's outputs for this frame's landmarks. -/
def analyze (st0 : TrainerState) (landmarks : List Landmark)
    (angles : FrameAngles) (current_time : ℚ) : TrainerState × AnalysisResult :=
  let result : AnalysisResult := {}
  if landmarks.length < 33 then
    (st0, { result with debug_info := "Incomplete pose data" })
  else
    let vis := is_full_body_visible st0.config landmarks
    let result := { result with debug_info := vis.2, is_full_body_visible := vis.1 }
    let st :=
      if vis.1 then
        { st0 with full_body_visible_count := st0.full_body_visible_count + 1 }
      else
        { st0 with full_body_visible_count := 0, is_ready := false }
    let result := { result with
      is_ready := decide (st.config.frames_required ≤ st.full_body_visible_count) }
    let result := { result with
      offset_angle := angles.offset_angle,
      is_frontal_view := decide (angles.offset_angle > st.config.offset_thresh) }
    if result.is_frontal_view then
      (st, { result with
        feedback_type := .frontalWarning,
        feedback_message := "Turn to side view for better analysis",
        current_state := st.current_state,
        correct_count := st.correct_count,
        incorrect_count := st.incorrect_count })
    else
      let sa := select_side angles
      let result := { result with
        detected_side := sa.side, knee_angle := sa.knee_angle,
        hip_vertical_angle := sa.hip_vertical,
        knee_vertical_angle := sa.knee_vertical,
        ankle_vertical_angle := sa.ankle_vertical }
      let st := track_min st sa.knee_angle
      let stepped := inactivity_step st sa.knee_vertical current_time
      let st := stepped.1
      let result := { result with inactivity_seconds := stepped.2 }
      let pair :=
        if result.is_ready then
          let st := { st with is_ready := true }
          -- Line 427 of the source reads `self.last_knee_vertical` after
          -- line 417 already stored this frame's value into it.
          let is_going_down := decide (sa.knee_vertical > st.last_knee_vertical)
          let st := transition_step st sa.knee_vertical
          let fb := determine_feedback st.config st.current_state
            sa.hip_vertical sa.knee_vertical sa.ankle_vertical is_going_down
          let result := { result with
            feedback_type := fb.1, feedback_message := fb.2.1,
            is_severe_feedback := fb.2.2 }
          (record_feedback st fb.1, result)
        else
          (st, { result with
            feedback_type := .none,
            feedback_message := "Position full body in frame" })
      let st := pair.1
      let result := pair.2
      (st, { result with
        current_state := st.current_state,
        state_sequence := st.state_sequence,
        correct_count := st.correct_count,
        incorrect_count := st.incorrect_count })

/-- Python `int()` truncation toward zero of a rational (used for the two
duration fields of the summary). -/
def rat_to_int (x : ℚ) : ℤ := x.num.tdiv x.den

/-- Lookup in the insertion-ordered histogram (`dict.get(key, 0)`). -/
def hist_get (h : List (String × ℕ)) (k : String) : ℕ :=
  match h.find? (fun p => p.1 = k) with
  | some p => p.2
  | Option.none => 0

/-- Python `min` over a list, guarded nonempty at its call site. -/
def list_min : List ℚ → ℚ
  | [] => 180
  | y :: ys => ys.foldl min y

/-- Python `max(d, key=d.get)` over the histogram: the first key attaining
the maximal count in iteration (insertion) order. -/
def most_common_key (h : List (String × ℕ)) : Option String :=
  (h.foldl (fun acc p =>
    match acc with
    | Option.none => some p
    | some q => if p.2 > q.2 then some p else some q) Option.none).map Prod.fst

/-- `np.std`: the population standard deviation, over the reals. -/
noncomputable def np_std (xs : List ℚ) : ℝ :=
  Real.sqrt (((xs.map (fun x => (x - xs.sum / xs.length) ^ 2)).sum : ℚ) / xs.length)

/-- `FitnessTrainer._calculate_form_score` (lines 520-548). -/
noncomputable def calculate_form_score (st : TrainerState) : ℝ :=
  if st.correct_count + st.incorrect_count = 0 then 0
  else
    let total : ℚ := st.correct_count + st.incorrect_count
    let accuracy_score : ℝ := (((st.correct_count : ℚ) / total) * 50 : ℚ)
    let consistency_score : ℝ :=
      if 1 < st.depth_angles.length then max 0 (25 - np_std st.depth_angles)
      else if st.depth_angles.length = 1 then 25
      else 0
    let severe_penalty : ℚ :=
      hist_get st.feedback_history FeedbackType.kneeOverToes.value * 2 +
      hist_get st.feedback_history FeedbackType.deepSquat.value * 2
    let feedback_score : ℝ := ((max 0 (25 - severe_penalty) : ℚ) : ℝ)
    min 100 (accuracy_score + consistency_score + feedback_score)

/-- `models.WorkoutSummary` (the session's `mode` tag, fixed at creation and
orthogonal to every claim, is carried by `TrainerState.config`). -/
structure WorkoutSummary where
  total_reps : ℕ
  correct_reps : ℕ
  incorrect_reps : ℕ
  accuracy_percentage : ℚ
  average_depth_angle : ℚ
  best_depth_angle : ℚ
  depth_angles : List ℚ
  form_score : ℝ
  form_label : String
  feedback_counts : List (String × ℕ)
  most_common_issue : Option String
  total_duration_seconds : ℤ
  active_time_seconds : ℤ

/-- `FitnessTrainer.get_summary` (lines 466-518); `current_time` models its
`time.time()` reading. -/
noncomputable def get_summary (st : TrainerState) (current_time : ℚ) :
    WorkoutSummary :=
  let total_reps := st.correct_count + st.incorrect_count
  let accuracy : ℚ :=
    if 0 < total_reps then ((st.correct_count : ℚ) / (total_reps : ℚ)) * 100 else 0
  let avg_depth : ℚ :=
    if st.depth_angles = [] then 180
    else st.depth_angles.sum / (st.depth_angles.length : ℚ)
  let best_depth : ℚ :=
    if st.depth_angles = [] then 180 else list_min st.depth_angles
  let form_score := calculate_form_score st
  let form_label :=
    if form_score ≥ 80 then "Excellent"
    else if form_score ≥ 60 then "Good"
    else if form_score ≥ 40 then "Fair"
    else "Needs Work"
  { total_reps := total_reps
    correct_reps := st.correct_count
    incorrect_reps := st.incorrect_count
    accuracy_percentage := accuracy
    average_depth_angle := avg_depth
    best_depth_angle := best_depth
    depth_angles := st.depth_angles
    form_score := form_score
    form_label := form_label
    feedback_counts := st.feedback_history
    most_common_issue :=
      if st.feedback_history = [] then Option.none
      else most_common_key st.feedback_history
    total_duration_seconds := rat_to_int (current_time - st.start_time)
    active_time_seconds := rat_to_int st.active_seconds }

/-- The readiness flag the frame reports (`analyze` lines 334-340): the
consecutive-visible count after this frame's visibility update reaches the
profile's required count. -/
def frame_ready (st : TrainerState) (lm : List Landmark) : Prop :=
  st.config.frames_required ≤
    (if (is_full_body_visible st.config lm).1 then st.full_body_visible_count + 1 else 0)

instance (st : TrainerState) (lm : List Landmark) :
    Decidable (frame_ready st lm) := by
  unfold frame_ready; infer_instance

/-- A landmark that fails the visibility gate's checks: outside the
`[margin, 1-margin]` box on either axis, or visibility below threshold. -/
def landmark_missing (cfg : ThresholdConfig) (l : Landmark) : Prop :=
  l.x < cfg.boundary_margin ∨ l.x > 1 - cfg.boundary_margin ∨
  l.y < cfg.boundary_margin ∨ l.y > 1 - cfg.boundary_margin ∨
  l.visibility < cfg.visibility_thresh

instance (cfg : ThresholdConfig) (l : Landmark) :
    Decidable (landmark_missing cfg l) := by
  unfold landmark_missing; infer_instance

/-- A fixed angle record for test frames: right side selected, hip-vertical
30, ankle-vertical 10, offset 10, knee-vertical `kv`, knee joint angle `ka`. -/
def sample_angles (kv ka : ℚ) : FrameAngles :=
  { offset_angle := 10, left_knee_angle := 170, right_knee_angle := ka,
    left_hip_vertical := 0, left_knee_vertical := 0, left_ankle_vertical := 0,
    right_hip_vertical := 30, right_knee_vertical := kv, right_ankle_vertical := 10 }

def good_landmark : Landmark := { x := 1/2, y := 1/2, visibility := 1 }

def frame_lm : List Landmark := List.replicate 33 good_landmark

def st_c1 : TrainerState :=
  { initState PRO_CONFIG 0 with
    current_state := .s2Transition, full_body_visible_count := 5,
    last_knee_vertical := 40, state_sequence := ["s2"] }

/-- 34 landmarks, all well inside the frame. -/
def lm34 : List Landmark := List.replicate 34 good_landmark

/-- 33 landmarks whose nose sits on the left edge of the frame. -/
def lm_bad : List Landmark :=
  { x := 0, y := 1/2, visibility := 1 } :: List.replicate 32 good_landmark

/-- A frame whose offset angle exceeds the frontal-view threshold. -/
def frontal_angles : FrameAngles :=
  { sample_angles 10 170 with offset_angle := 50 }

def st_c2cx : TrainerState :=
  { initState PRO_CONFIG 0 with
    current_state := .s2Transition, full_body_visible_count := 5,
    last_knee_vertical := 12, state_sequence := ["s2", "s3", "s2"],
    correct_count := 2, incorrect_count := 1 }

def angles_c2cx : FrameAngles :=
  { sample_angles 10 180 with left_knee_angle := 180 }

def st_c2w : TrainerState :=
  { st_c2cx with min_knee_angle_this_rep := 90 }

def st_c4cx : TrainerState :=
  { initState PRO_CONFIG 0 with
    full_body_visible_count := 2, last_knee_vertical := 50, correct_count := 1 }

def st_c4w : TrainerState :=
  { initState PRO_CONFIG 0 with
    last_knee_vertical := 50, correct_count := 3, incorrect_count := 2,
    state_sequence := ["s2"] }

def st_c6cx : TrainerState :=
  { initState PRO_CONFIG 0 with
    min_knee_angle_this_rep := 90, last_knee_vertical := 50,
    state_sequence := ["s2"] }

def st_c10 : TrainerState :=
  { initState PRO_CONFIG 0 with
    last_knee_vertical := 50, correct_count := 4,
    incorrect_count := 1, state_sequence := ["s2"], min_knee_angle_this_rep := 120 }

/-- A session run: three warm-up frames to readiness, one full correct rep
(knee-vertical 10, 50, 85, 50, 10; knee joint angle bottoming at 90), then a
frame after 23 seconds of stillness that triggers the inactivity reset. -/
def c5_s1 : TrainerState := (analyze (initState PRO_CONFIG 0) frame_lm (sample_angles 10 170) 1).1
def c5_s2 : TrainerState := (analyze c5_s1 frame_lm (sample_angles 10 170) 2).1
def c5_s3 : TrainerState := (analyze c5_s2 frame_lm (sample_angles 10 170) 3).1
def c5_s4 : TrainerState := (analyze c5_s3 frame_lm (sample_angles 50 150) 4).1
def c5_s5 : TrainerState := (analyze c5_s4 frame_lm (sample_angles 85 90) 5).1
def c5_s6 : TrainerState := (analyze c5_s5 frame_lm (sample_angles 50 150) 6).1
def c5_s7 : TrainerState := (analyze c5_s6 frame_lm (sample_angles 10 170) 7).1
def c5_final : TrainerState := (analyze c5_s7 frame_lm (sample_angles 10 170) 30).1

lemma missing_of_ne_nil (cfg : ThresholdConfig) (lm : List Landmark)
    (keys : List (ℕ × String)) (p : ℕ × String) (hp : p ∈ keys)
    (hip : p.1 < lm.length) (hbad : landmark_missing cfg (lm.get ⟨p.1, hip⟩)) :
    missing_of cfg lm keys ≠ [] := by
  induction keys with
  | nil => simp at hp
  | cons q rest ih =>
    obtain ⟨idx, name⟩ := q
    rw [missing_of]
    intro hcon
    rcases List.append_eq_nil.mp hcon with ⟨h1, h2⟩
    rcases List.mem_cons.mp hp with heq | hmem
    · subst heq
      rw [dif_pos hip] at h1
      unfold landmark_missing at hbad
      simp only [] at h1 hbad
      split_ifs at h1 with hc1 hc2
      tauto
    · exact ih hmem h2

section StageLemmas

variable (st : TrainerState) (ka kv t : ℚ) (ft : FeedbackType)

@[simp] lemma track_min_config : (track_min st ka).config = st.config := by
  unfold track_min; split_ifs <;> rfl

@[simp] lemma track_min_current_state : (track_min st ka).current_state = st.current_state := by
  unfold track_min; split_ifs <;> rfl

@[simp] lemma track_min_state_sequence : (track_min st ka).state_sequence = st.state_sequence := by
  unfold track_min; split_ifs <;> rfl

@[simp] lemma track_min_correct_count : (track_min st ka).correct_count = st.correct_count := by
  unfold track_min; split_ifs <;> rfl

@[simp] lemma track_min_incorrect_count : (track_min st ka).incorrect_count = st.incorrect_count := by
  unfold track_min; split_ifs <;> rfl

@[simp] lemma track_min_depth_angles : (track_min st ka).depth_angles = st.depth_angles := by
  unfold track_min; split_ifs <;> rfl

@[simp] lemma track_min_feedback_history : (track_min st ka).feedback_history = st.feedback_history := by
  unfold track_min; split_ifs <;> rfl

@[simp] lemma track_min_last_active_time : (track_min st ka).last_active_time = st.last_active_time := by
  unfold track_min; split_ifs <;> rfl

@[simp] lemma track_min_last_knee_vertical : (track_min st ka).last_knee_vertical = st.last_knee_vertical := by
  unfold track_min; split_ifs <;> rfl

@[simp] lemma track_min_full_body_visible_count : (track_min st ka).full_body_visible_count = st.full_body_visible_count := by
  unfold track_min; split_ifs <;> rfl

@[simp] lemma track_min_is_ready : (track_min st ka).is_ready = st.is_ready := by
  unfold track_min; split_ifs <;> rfl

@[simp] lemma track_min_min : (track_min st ka).min_knee_angle_this_rep = min st.min_knee_angle_this_rep ka := by
  unfold track_min
  split_ifs with h
  · exact (min_eq_right (le_of_lt h)).symm
  · exact (min_eq_left (le_of_not_lt h)).symm

@[simp] lemma inactivity_step_config : ((inactivity_step st kv t).1).config = st.config := by
  unfold inactivity_step; dsimp only; split_ifs <;> rfl

@[simp] lemma inactivity_step_current_state : ((inactivity_step st kv t).1).current_state = st.current_state := by
  unfold inactivity_step; dsimp only; split_ifs <;> rfl

@[simp] lemma inactivity_step_depth_angles : ((inactivity_step st kv t).1).depth_angles = st.depth_angles := by
  unfold inactivity_step; dsimp only; split_ifs <;> rfl

@[simp] lemma inactivity_step_min : ((inactivity_step st kv t).1).min_knee_angle_this_rep = st.min_knee_angle_this_rep := by
  unfold inactivity_step; dsimp only; split_ifs <;> rfl

@[simp] lemma inactivity_step_feedback_history : ((inactivity_step st kv t).1).feedback_history = st.feedback_history := by
  unfold inactivity_step; dsimp only; split_ifs <;> rfl

@[simp] lemma inactivity_step_full_body_visible_count : ((inactivity_step st kv t).1).full_body_visible_count = st.full_body_visible_count := by
  unfold inactivity_step; dsimp only; split_ifs <;> rfl

@[simp] lemma inactivity_step_is_ready : ((inactivity_step st kv t).1).is_ready = st.is_ready := by
  unfold inactivity_step; dsimp only; split_ifs <;> rfl

@[simp] lemma inactivity_step_last_knee_vertical : ((inactivity_step st kv t).1).last_knee_vertical = kv := by
  unfold inactivity_step; rfl

lemma inactivity_step_no_reset
    (h0 : 0 ≤ st.config.inactive_thresh)
    (h1 : t - st.last_active_time ≤ st.config.inactive_thresh) :
    ((inactivity_step st kv t).1).correct_count = st.correct_count ∧
    ((inactivity_step st kv t).1).incorrect_count = st.incorrect_count ∧
    ((inactivity_step st kv t).1).state_sequence = st.state_sequence := by
  unfold inactivity_step
  dsimp only
  by_cases hm : |kv - st.last_knee_vertical| > 3
  · rw [if_pos hm]
    dsimp only
    rw [if_neg (by push_neg; simpa using h0)]
    exact ⟨rfl, rfl, rfl⟩
  · rw [if_neg hm]
    rw [if_neg (by push_neg; exact h1)]
    exact ⟨rfl, rfl, rfl⟩

lemma inactivity_step_reset
    (hm : ¬ |kv - st.last_knee_vertical| > 3)
    (hr : t - st.last_active_time > st.config.inactive_thresh) :
    ((inactivity_step st kv t).1).correct_count = 0 ∧
    ((inactivity_step st kv t).1).incorrect_count = 0 ∧
    ((inactivity_step st kv t).1).state_sequence = [] := by
  unfold inactivity_step
  dsimp only
  rw [if_neg hm, if_pos hr]
  exact ⟨rfl, rfl, rfl⟩

@[simp] lemma record_feedback_config : (record_feedback st ft).config = st.config := by
  unfold record_feedback; split_ifs <;> rfl

@[simp] lemma record_feedback_current_state : (record_feedback st ft).current_state = st.current_state := by
  unfold record_feedback; split_ifs <;> rfl

@[simp] lemma record_feedback_state_sequence : (record_feedback st ft).state_sequence = st.state_sequence := by
  unfold record_feedback; split_ifs <;> rfl

@[simp] lemma record_feedback_correct_count : (record_feedback st ft).correct_count = st.correct_count := by
  unfold record_feedback; split_ifs <;> rfl

@[simp] lemma record_feedback_incorrect_count : (record_feedback st ft).incorrect_count = st.incorrect_count := by
  unfold record_feedback; split_ifs <;> rfl

@[simp] lemma record_feedback_depth_angles : (record_feedback st ft).depth_angles = st.depth_angles := by
  unfold record_feedback; split_ifs <;> rfl

@[simp] lemma record_feedback_min : (record_feedback st ft).min_knee_angle_this_rep = st.min_knee_angle_this_rep := by
  unfold record_feedback; split_ifs <;> rfl

@[simp] lemma record_feedback_is_ready : (record_feedback st ft).is_ready = st.is_ready := by
  unfold record_feedback; split_ifs <;> rfl

@[simp] lemma record_feedback_full_body_visible_count : (record_feedback st ft).full_body_visible_count = st.full_body_visible_count := by
  unfold record_feedback; split_ifs <;> rfl

@[simp] lemma update_counters_min : (update_counters st).min_knee_angle_this_rep = 180 := by
  unfold update_counters; rfl

@[simp] lemma update_counters_state_sequence : (update_counters st).state_sequence = [] := by
  unfold update_counters; rfl

@[simp] lemma update_counters_current_state : (update_counters st).current_state = st.current_state := by
  unfold update_counters; dsimp only; split_ifs <;> rfl

lemma update_counters_of_nil (h : st.state_sequence = []) :
    (update_counters st).correct_count = st.correct_count ∧
    (update_counters st).incorrect_count = st.incorrect_count ∧
    (update_counters st).depth_angles = st.depth_angles := by
  unfold update_counters
  dsimp only
  split_ifs with h1 h2 <;> simp_all

lemma transition_step_to_standing
    (h1 : determine_state st.config kv st.current_state = .s1Normal)
    (h2 : st.current_state ≠ .s1Normal) :
    transition_step st kv =
      update_counters { st with prev_state := st.current_state, current_state := .s1Normal } := by
  unfold transition_step
  rw [h1, if_pos (Ne.symm h2)]
  simp

lemma transition_step_stay
    (h : determine_state st.config kv st.current_state = st.current_state) :
    transition_step st kv = st := by
  unfold transition_step
  rw [h]
  simp

lemma transition_step_counters_of_nil (h : st.state_sequence = []) :
    (transition_step st kv).correct_count = st.correct_count ∧
    (transition_step st kv).incorrect_count = st.incorrect_count := by
  unfold transition_step
  dsimp only
  split_ifs <;> simp_all [update_counters]

end StageLemmas

lemma transition_step_min_of_not_standing (st : TrainerState) (kv : ℚ)
    (h : ¬ (determine_state st.config kv st.current_state = .s1Normal ∧
            st.current_state ≠ .s1Normal)) :
    (transition_step st kv).min_knee_angle_this_rep = st.min_knee_angle_this_rep := by
  unfold transition_step
  dsimp only
  by_cases h1 : determine_state st.config kv st.current_state ≠ st.current_state
  · rw [if_pos h1]
    have hns : determine_state st.config kv st.current_state ≠ .s1Normal :=
      fun he => h ⟨he, fun hc => h1 (he.trans hc.symm)⟩
    rw [if_neg hns]
    split_ifs <;> rfl
  · rw [if_neg h1]

/-- C7: phase classification with hysteresis.  For profiles with ordered
bands (both built-in profiles are), a knee-vertical angle at or below
`state_s1_max` classifies as Standing, one inside the s2 band as Transition,
one inside the s3 band or beyond `state_s3_max` as Depth, and one inside
either unclassified gap leaves the current phase unchanged. -/
theorem determine_state_classification (cfg : ThresholdConfig) (cur : SquatState) (a : ℚ)
    (h12 : cfg.state_s1_max < cfg.state_s2_min)
    (h2 : cfg.state_s2_min ≤ cfg.state_s2_max)
    (h23 : cfg.state_s2_max < cfg.state_s3_min)
    (h3 : cfg.state_s3_min ≤ cfg.state_s3_max) :
    (a ≤ cfg.state_s1_max → determine_state cfg a cur = .s1Normal) ∧
    (cfg.state_s2_min ≤ a ∧ a ≤ cfg.state_s2_max → determine_state cfg a cur = .s2Transition) ∧
    (cfg.state_s3_min ≤ a ∧ a ≤ cfg.state_s3_max → determine_state cfg a cur = .s3Pass) ∧
    (cfg.state_s3_max < a → determine_state cfg a cur = .s3Pass) ∧
    (cfg.state_s1_max < a ∧ a < cfg.state_s2_min → determine_state cfg a cur = cur) ∧
    (cfg.state_s2_max < a ∧ a < cfg.state_s3_min → determine_state cfg a cur = cur) := by
  unfold determine_state
  refine ⟨fun h => ?_, fun ⟨ha, hb⟩ => ?_, fun ⟨ha, hb⟩ => ?_, fun h => ?_,
    fun ⟨ha, hb⟩ => ?_, fun ⟨ha, hb⟩ => ?_⟩
  · rw [if_pos h]
  · rw [if_neg (by push_neg; linarith), if_pos ⟨ha, hb⟩]
  · rw [if_neg (by push_neg; linarith), if_neg (by push_neg; intro h'; linarith),
      if_pos ⟨ha, hb⟩]
  · rw [if_neg (by push_neg; linarith), if_neg (by push_neg; intro h'; linarith),
      if_neg (by push_neg; intro h'; linarith), if_pos h]
  · rw [if_neg (by push_neg; linarith), if_neg (by push_neg; intro h'; linarith),
      if_neg (by push_neg; intro h'; linarith), if_neg (by push_neg; linarith)]
  · rw [if_neg (by push_neg; linarith), if_neg (by push_neg; intro h'; linarith),
      if_neg (by push_neg; intro h'; linarith), if_neg (by push_neg; linarith)]

theorem determine_state_classification_witness :
    (PRO_CONFIG.state_s1_max < PRO_CONFIG.state_s2_min) ∧
    (PRO_CONFIG.state_s2_min ≤ PRO_CONFIG.state_s2_max) ∧
    (PRO_CONFIG.state_s2_max < PRO_CONFIG.state_s3_min) ∧
    (PRO_CONFIG.state_s3_min ≤ PRO_CONFIG.state_s3_max) ∧
    (((40 : ℚ) ≤ PRO_CONFIG.state_s1_max → determine_state PRO_CONFIG 40 .s1Normal = .s1Normal) ∧
     (PRO_CONFIG.state_s2_min ≤ (40 : ℚ) ∧ (40 : ℚ) ≤ PRO_CONFIG.state_s2_max →
       determine_state PRO_CONFIG 40 .s1Normal = .s2Transition) ∧
     (PRO_CONFIG.state_s3_min ≤ (40 : ℚ) ∧ (40 : ℚ) ≤ PRO_CONFIG.state_s3_max →
       determine_state PRO_CONFIG 40 .s1Normal = .s3Pass) ∧
     (PRO_CONFIG.state_s3_max < (40 : ℚ) → determine_state PRO_CONFIG 40 .s1Normal = .s3Pass) ∧
     (PRO_CONFIG.state_s1_max < (40 : ℚ) ∧ (40 : ℚ) < PRO_CONFIG.state_s2_min →
       determine_state PRO_CONFIG 40 .s1Normal = .s1Normal) ∧
     (PRO_CONFIG.state_s2_max < (40 : ℚ) ∧ (40 : ℚ) < PRO_CONFIG.state_s3_min →
       determine_state PRO_CONFIG 40 .s1Normal = .s1Normal)) :=
  ⟨by decide, by decide, by decide, by decide,
   determine_state_classification PRO_CONFIG .s1Normal 40
     (by decide) (by decide) (by decide) (by decide)⟩

/-- C3 (amended): `analyze` requires at least 33 landmarks: with fewer it
returns the "Incomplete pose data" diagnostic and the session state is
returned unchanged.  (The original claim also covered more than 33
landmarks; `analyze_accepts_34_landmarks` refutes that half.) -/
theorem analyze_short_landmarks (st : TrainerState) (lm : List Landmark)
    (angles : FrameAngles) (t : ℚ) (h : lm.length < 33) :
    (analyze st lm angles t).1 = st ∧
    (analyze st lm angles t).2.debug_info = "Incomplete pose data" := by
  unfold analyze
  rw [if_pos h]
  exact ⟨rfl, rfl⟩

theorem analyze_short_landmarks_witness :
    ([] : List Landmark).length < 33 ∧
    ((analyze (initState PRO_CONFIG 0) [] (sample_angles 10 170) 1).1 = initState PRO_CONFIG 0 ∧
     (analyze (initState PRO_CONFIG 0) [] (sample_angles 10 170) 1).2.debug_info = "Incomplete pose data") :=
  ⟨by decide, analyze_short_landmarks (initState PRO_CONFIG 0) [] (sample_angles 10 170) 1 (by decide)⟩

/-- C3 counterexample: a 34-landmark frame is not rejected: `analyze`
processes it normally and mutates the session state. -/
theorem analyze_accepts_34_landmarks :
    lm34.length = 34 ∧
    (analyze (initState PRO_CONFIG 0) lm34 (sample_angles 10 170) 1).2.debug_info
      = "Full body visible" ∧
    (analyze (initState PRO_CONFIG 0) lm34 (sample_angles 10 170) 1).1
      ≠ initState PRO_CONFIG 0 := by
  with_unfolding_all decide

/-- C8: a frontal-view frame (offset angle above the profile threshold, 33
landmarks) returns the frontal warning and leaves the rep counters, the
current phase, the phase history, the per-rep minimum and the feedback
histogram unchanged, for any knee angles. -/
theorem analyze_frontal_view (st : TrainerState) (lm : List Landmark)
    (angles : FrameAngles) (t : ℚ)
    (hlen : ¬ lm.length < 33)
    (hoff : angles.offset_angle > st.config.offset_thresh) :
    (analyze st lm angles t).2.feedback_type = .frontalWarning ∧
    (analyze st lm angles t).1.correct_count = st.correct_count ∧
    (analyze st lm angles t).1.incorrect_count = st.incorrect_count ∧
    (analyze st lm angles t).1.current_state = st.current_state ∧
    (analyze st lm angles t).1.state_sequence = st.state_sequence ∧
    (analyze st lm angles t).1.min_knee_angle_this_rep = st.min_knee_angle_this_rep ∧
    (analyze st lm angles t).1.feedback_history = st.feedback_history := by
  unfold analyze
  rw [if_neg hlen]
  by_cases hv : (is_full_body_visible st.config lm).1 <;>
    simp [hv, hoff]

theorem analyze_frontal_view_witness :
    frontal_angles.offset_angle > (initState PRO_CONFIG 0).config.offset_thresh ∧
    ((analyze (initState PRO_CONFIG 0) frame_lm frontal_angles 1).2.feedback_type
       = .frontalWarning ∧
     (analyze (initState PRO_CONFIG 0) frame_lm frontal_angles 1).1.correct_count
       = (initState PRO_CONFIG 0).correct_count ∧
     (analyze (initState PRO_CONFIG 0) frame_lm frontal_angles 1).1.incorrect_count
       = (initState PRO_CONFIG 0).incorrect_count ∧
     (analyze (initState PRO_CONFIG 0) frame_lm frontal_angles 1).1.current_state
       = (initState PRO_CONFIG 0).current_state ∧
     (analyze (initState PRO_CONFIG 0) frame_lm frontal_angles 1).1.state_sequence
       = (initState PRO_CONFIG 0).state_sequence ∧
     (analyze (initState PRO_CONFIG 0) frame_lm frontal_angles 1).1.min_knee_angle_this_rep
       = (initState PRO_CONFIG 0).min_knee_angle_this_rep ∧
     (analyze (initState PRO_CONFIG 0) frame_lm frontal_angles 1).1.feedback_history
       = (initState PRO_CONFIG 0).feedback_history) :=
  ⟨by with_unfolding_all decide,
   analyze_frontal_view (initState PRO_CONFIG 0) frame_lm frontal_angles 1
     (by decide) (by with_unfolding_all decide)⟩

/-- C9: if any of the nine key landmarks lies outside the boundary box on
either axis or falls below the visibility threshold, the frame reports
not-visible, the consecutive-visible counter resets to 0 and readiness is
forced false (for profiles requiring at least one visible frame). -/
theorem analyze_visibility_failure (st : TrainerState) (lm : List Landmark)
    (angles : FrameAngles) (t : ℚ)
    (hlen : ¬ lm.length < 33)
    (hfr : 0 < st.config.frames_required)
    (p : ℕ × String) (hp : p ∈ key_indices) (hip : p.1 < lm.length)
    (hbad : landmark_missing st.config (lm.get ⟨p.1, hip⟩)) :
    (analyze st lm angles t).2.is_full_body_visible = false ∧
    (analyze st lm angles t).2.is_ready = false ∧
    (analyze st lm angles t).1.full_body_visible_count = 0 ∧
    (analyze st lm angles t).1.is_ready = false := by
  have hv : (is_full_body_visible st.config lm).1 = false := by
    unfold is_full_body_visible
    rw [if_neg (missing_of_ne_nil st.config lm key_indices p hp hip hbad)]
  have hfr' : ¬ st.config.frames_required ≤ 0 := by omega
  unfold analyze
  rw [if_neg hlen]
  simp only [hv, Bool.false_eq_true, if_false, decide_eq_true_eq]
  by_cases ho : angles.offset_angle > st.config.offset_thresh <;>
    simp [ho, hfr', track_min, inactivity_step] <;>
    split_ifs <;> simp

theorem analyze_visibility_failure_witness :
    landmark_missing PRO_CONFIG { x := 0, y := 1/2, visibility := 1 } ∧
    ((analyze (initState PRO_CONFIG 0) lm_bad (sample_angles 10 170) 1).2.is_full_body_visible
       = false ∧
     (analyze (initState PRO_CONFIG 0) lm_bad (sample_angles 10 170) 1).2.is_ready = false ∧
     (analyze (initState PRO_CONFIG 0) lm_bad (sample_angles 10 170) 1).1.full_body_visible_count
       = 0 ∧
     (analyze (initState PRO_CONFIG 0) lm_bad (sample_angles 10 170) 1).1.is_ready = false) :=
  ⟨by with_unfolding_all decide,
   analyze_visibility_failure (initState PRO_CONFIG 0) lm_bad (sample_angles 10 170) 1
     (by decide) (by decide) (0, "Nose") (by decide) (by decide)
     (by with_unfolding_all decide)⟩

/-- C2 (amended): when a ready, non-frontal frame with no intervening
inactivity reset changes the phase to Standing: a history of length at
least 3 containing a Depth entry increments the correct counter by one and
appends the per-rep minimum to the depth list exactly when that minimum is
strictly below its initial 180; a non-empty history without Depth
increments the incorrect counter; an empty history changes neither. -/
theorem analyze_rep_finalization (st : TrainerState) (lm : List Landmark)
    (angles : FrameAngles) (t : ℚ)
    (hlen : ¬ lm.length < 33)
    (hoff : ¬ angles.offset_angle > st.config.offset_thresh)
    (hready : frame_ready st lm)
    (hthr : 0 ≤ st.config.inactive_thresh)
    (hact : t - st.last_active_time ≤ st.config.inactive_thresh)
    (hstate : determine_state st.config (select_side angles).knee_vertical
      st.current_state = .s1Normal)
    (hcur : st.current_state ≠ .s1Normal) :
    (3 ≤ st.state_sequence.length ∧ SquatState.s3Pass.value ∈ st.state_sequence →
      (analyze st lm angles t).1.correct_count = st.correct_count + 1 ∧
      (analyze st lm angles t).1.incorrect_count = st.incorrect_count ∧
      (analyze st lm angles t).1.depth_angles =
        (if min st.min_knee_angle_this_rep (select_side angles).knee_angle < 180 then
          st.depth_angles ++ [min st.min_knee_angle_this_rep (select_side angles).knee_angle]
        else st.depth_angles)) ∧
    (st.state_sequence ≠ [] ∧ SquatState.s3Pass.value ∉ st.state_sequence →
      (analyze st lm angles t).1.incorrect_count = st.incorrect_count + 1 ∧
      (analyze st lm angles t).1.correct_count = st.correct_count ∧
      (analyze st lm angles t).1.depth_angles = st.depth_angles) ∧
    (st.state_sequence = [] →
      (analyze st lm angles t).1.correct_count = st.correct_count ∧
      (analyze st lm angles t).1.incorrect_count = st.incorrect_count ∧
      (analyze st lm angles t).1.depth_angles = st.depth_angles) := by
  unfold analyze
  rw [if_neg hlen]
  unfold frame_ready at hready
  by_cases hv : (is_full_body_visible st.config lm).1
  case pos =>
    have hready2 : st.config.frames_required ≤ st.full_body_visible_count + 1 := by
      simpa [hv] using hready
    simp only [hv, if_true, if_false, Bool.false_eq_true, decide_eq_true_eq,
      if_neg hoff, if_pos hready2]
    refine ⟨fun hc => ?_, fun hc => ?_, fun hc => ?_⟩
    · obtain ⟨hl3, hs3⟩ := hc
      by_cases hmin : min st.min_knee_angle_this_rep (select_side angles).knee_angle < 180 <;>
        simp [transition_step_to_standing, hstate, hcur, update_counters,
              inactivity_step_no_reset, hthr, hact, hl3, hs3, hmin]
    · obtain ⟨hne, hs3⟩ := hc
      have hpos : 0 < st.state_sequence.length := List.length_pos.mpr hne
      by_cases hl3 : 3 ≤ st.state_sequence.length <;>
        simp [transition_step_to_standing, hstate, hcur, update_counters,
              inactivity_step_no_reset, hthr, hact, hl3, hs3, hpos]
    · simp [transition_step_to_standing, hstate, hcur, update_counters,
            inactivity_step_no_reset, hthr, hact, hc]
  case neg =>
    have hready2 : st.config.frames_required ≤ 0 := by simpa [hv] using hready
    simp only [hv, if_true, if_false, Bool.false_eq_true, decide_eq_true_eq,
      if_neg hoff, if_pos hready2]
    refine ⟨fun hc => ?_, fun hc => ?_, fun hc => ?_⟩
    · obtain ⟨hl3, hs3⟩ := hc
      by_cases hmin : min st.min_knee_angle_this_rep (select_side angles).knee_angle < 180 <;>
        simp [transition_step_to_standing, hstate, hcur, update_counters,
              inactivity_step_no_reset, hthr, hact, hl3, hs3, hmin]
    · obtain ⟨hne, hs3⟩ := hc
      have hpos : 0 < st.state_sequence.length := List.length_pos.mpr hne
      by_cases hl3 : 3 ≤ st.state_sequence.length <;>
        simp [transition_step_to_standing, hstate, hcur, update_counters,
              inactivity_step_no_reset, hthr, hact, hl3, hs3, hpos]
    · simp [transition_step_to_standing, hstate, hcur, update_counters,
            inactivity_step_no_reset, hthr, hact, hc]

theorem analyze_rep_finalization_witness :
    frame_ready st_c2w frame_lm ∧
    (3 ≤ st_c2w.state_sequence.length ∧
      SquatState.s3Pass.value ∈ st_c2w.state_sequence) ∧
    ((3 ≤ st_c2w.state_sequence.length ∧
        SquatState.s3Pass.value ∈ st_c2w.state_sequence →
      (analyze st_c2w frame_lm (sample_angles 10 95) 1).1.correct_count
        = st_c2w.correct_count + 1 ∧
      (analyze st_c2w frame_lm (sample_angles 10 95) 1).1.incorrect_count
        = st_c2w.incorrect_count ∧
      (analyze st_c2w frame_lm (sample_angles 10 95) 1).1.depth_angles =
        (if min st_c2w.min_knee_angle_this_rep
              (select_side (sample_angles 10 95)).knee_angle < 180 then
          st_c2w.depth_angles ++
            [min st_c2w.min_knee_angle_this_rep
              (select_side (sample_angles 10 95)).knee_angle]
        else st_c2w.depth_angles)) ∧
    (st_c2w.state_sequence ≠ [] ∧
        SquatState.s3Pass.value ∉ st_c2w.state_sequence →
      (analyze st_c2w frame_lm (sample_angles 10 95) 1).1.incorrect_count
        = st_c2w.incorrect_count + 1 ∧
      (analyze st_c2w frame_lm (sample_angles 10 95) 1).1.correct_count
        = st_c2w.correct_count ∧
      (analyze st_c2w frame_lm (sample_angles 10 95) 1).1.depth_angles
        = st_c2w.depth_angles) ∧
    (st_c2w.state_sequence = [] →
      (analyze st_c2w frame_lm (sample_angles 10 95) 1).1.correct_count
        = st_c2w.correct_count ∧
      (analyze st_c2w frame_lm (sample_angles 10 95) 1).1.incorrect_count
        = st_c2w.incorrect_count ∧
      (analyze st_c2w frame_lm (sample_angles 10 95) 1).1.depth_angles
        = st_c2w.depth_angles)) :=
  ⟨by with_unfolding_all decide, by with_unfolding_all decide,
   analyze_rep_finalization st_c2w frame_lm (sample_angles 10 95) 1
     (by decide) (by with_unfolding_all decide) (by with_unfolding_all decide)
     (by with_unfolding_all decide) (by with_unfolding_all decide)
     (by with_unfolding_all decide) (by with_unfolding_all decide)⟩

/-- C2 counterexample: a rep finalized with the per-rep minimum still at
its initial 180 increments the correct counter but appends nothing to the
depth-angle list, against the claim's unconditional append. -/
theorem rep_finalized_without_depth_append :
    3 ≤ st_c2cx.state_sequence.length ∧
    SquatState.s3Pass.value ∈ st_c2cx.state_sequence ∧
    st_c2cx.min_knee_angle_this_rep = 180 ∧
    (analyze st_c2cx frame_lm angles_c2cx 1).2.is_ready = true ∧
    (analyze st_c2cx frame_lm angles_c2cx 1).1.current_state = .s1Normal ∧
    (analyze st_c2cx frame_lm angles_c2cx 1).1.correct_count
      = st_c2cx.correct_count + 1 ∧
    (analyze st_c2cx frame_lm angles_c2cx 1).1.depth_angles = [] := by
  with_unfolding_all decide

/-- C4 (amended): a 33-landmark, non-frontal frame whose knee-vertical
change is within 3 degrees and whose elapsed time since the last-active
time exceeds the inactivity timeout leaves both rep counters 0 at the end
of the call; when the frame is not ready the phase history ends empty and
the current phase unchanged.  (A ready frame may still reclassify the
phase and append to the cleared history: see the counterexample.) -/
theorem analyze_inactivity_reset (st : TrainerState) (lm : List Landmark)
    (angles : FrameAngles) (t : ℚ)
    (hlen : ¬ lm.length < 33)
    (hoff : ¬ angles.offset_angle > st.config.offset_thresh)
    (hm : ¬ |(select_side angles).knee_vertical - st.last_knee_vertical| > 3)
    (hr : t - st.last_active_time > st.config.inactive_thresh) :
    (analyze st lm angles t).1.correct_count = 0 ∧
    (analyze st lm angles t).1.incorrect_count = 0 ∧
    (¬ frame_ready st lm →
      (analyze st lm angles t).1.state_sequence = [] ∧
      (analyze st lm angles t).1.current_state = st.current_state) := by
  unfold analyze
  rw [if_neg hlen]
  by_cases hv : (is_full_body_visible st.config lm).1
  case pos =>
    by_cases hrdy : st.config.frames_required ≤ st.full_body_visible_count + 1
    · simp only [hv, if_true, if_false, Bool.false_eq_true, decide_eq_true_eq,
        if_neg hoff, if_pos hrdy]
      refine ⟨?_, ?_, fun hnr => absurd (by unfold frame_ready; simpa [hv] using hrdy) hnr⟩ <;>
        simp [transition_step_counters_of_nil, inactivity_step_reset, hm, hr]
    · simp only [hv, if_true, if_false, Bool.false_eq_true, decide_eq_true_eq,
        if_neg hoff, if_neg hrdy]
      refine ⟨?_, ?_, fun _ => ⟨?_, ?_⟩⟩ <;>
        simp [inactivity_step_reset, hm, hr]
  case neg =>
    by_cases hrdy : st.config.frames_required ≤ 0
    · simp only [hv, if_true, if_false, Bool.false_eq_true, decide_eq_true_eq,
        if_neg hoff, if_pos hrdy]
      refine ⟨?_, ?_, fun hnr => absurd (by unfold frame_ready; simpa [hv] using hrdy) hnr⟩ <;>
        simp [transition_step_counters_of_nil, inactivity_step_reset, hm, hr]
    · simp only [hv, if_true, if_false, Bool.false_eq_true, decide_eq_true_eq,
        if_neg hoff, if_neg hrdy]
      refine ⟨?_, ?_, fun _ => ⟨?_, ?_⟩⟩ <;>
        simp [inactivity_step_reset, hm, hr]

theorem analyze_inactivity_reset_witness :
    ¬ |(select_side (sample_angles 50 150)).knee_vertical - st_c4w.last_knee_vertical| > 3 ∧
    (100 : ℚ) - st_c4w.last_active_time > st_c4w.config.inactive_thresh ∧
    ((analyze st_c4w frame_lm (sample_angles 50 150) 100).1.correct_count = 0 ∧
     (analyze st_c4w frame_lm (sample_angles 50 150) 100).1.incorrect_count = 0 ∧
     (¬ frame_ready st_c4w frame_lm →
       (analyze st_c4w frame_lm (sample_angles 50 150) 100).1.state_sequence = [] ∧
       (analyze st_c4w frame_lm (sample_angles 50 150) 100).1.current_state
         = st_c4w.current_state)) :=
  ⟨by with_unfolding_all decide, by with_unfolding_all decide,
   analyze_inactivity_reset st_c4w frame_lm (sample_angles 50 150) 100
     (by decide) (by with_unfolding_all decide) (by with_unfolding_all decide)
     (by with_unfolding_all decide)⟩

/-- C4 counterexample: an inactivity-timeout frame that is also ready
reclassifies the phase (Standing to Transition here) and appends it to the
just-cleared history, so at the end of the call the history is not empty
and the phase has changed. -/
theorem inactivity_reset_frame_still_classifies :
    frame_lm.length = 33 ∧
    ¬ (sample_angles 50 150).offset_angle > st_c4cx.config.offset_thresh ∧
    ¬ |(select_side (sample_angles 50 150)).knee_vertical - st_c4cx.last_knee_vertical| > 3 ∧
    (100 : ℚ) - st_c4cx.last_active_time > st_c4cx.config.inactive_thresh ∧
    (analyze st_c4cx frame_lm (sample_angles 50 150) 100).1.state_sequence = ["s2"] ∧
    (analyze st_c4cx frame_lm (sample_angles 50 150) 100).1.current_state
      ≠ st_c4cx.current_state := by
  with_unfolding_all decide

/-- C10: a not-ready, 33-landmark, non-frontal frame still updates the
per-rep minimum to the running minimum and still performs the inactivity
bookkeeping: a timeout on such a frame zeroes both rep counters and clears
the phase history, while the frame's feedback is the neutral positioning
message. -/
theorem analyze_not_ready_updates (st : TrainerState) (lm : List Landmark)
    (angles : FrameAngles) (t : ℚ)
    (hlen : ¬ lm.length < 33)
    (hoff : ¬ angles.offset_angle > st.config.offset_thresh)
    (hnr : ¬ frame_ready st lm) :
    (analyze st lm angles t).1.min_knee_angle_this_rep
      = min st.min_knee_angle_this_rep (select_side angles).knee_angle ∧
    (analyze st lm angles t).2.feedback_message = "Position full body in frame" ∧
    ((¬ |(select_side angles).knee_vertical - st.last_knee_vertical| > 3) →
      t - st.last_active_time > st.config.inactive_thresh →
      (analyze st lm angles t).1.correct_count = 0 ∧
      (analyze st lm angles t).1.incorrect_count = 0 ∧
      (analyze st lm angles t).1.state_sequence = []) := by
  unfold analyze
  rw [if_neg hlen]
  unfold frame_ready at hnr
  by_cases hv : (is_full_body_visible st.config lm).1
  case pos =>
    have hnr2 : ¬ st.config.frames_required ≤ st.full_body_visible_count + 1 := by
      simpa [hv] using hnr
    simp only [hv, if_true, if_false, Bool.false_eq_true, decide_eq_true_eq,
      if_neg hoff, if_neg hnr2]
    refine ⟨by simp, by simp, fun hm hr => ?_⟩
    simp [inactivity_step_reset, hm, hr]
  case neg =>
    have hnr2 : ¬ st.config.frames_required ≤ 0 := by simpa [hv] using hnr
    simp only [hv, if_true, if_false, Bool.false_eq_true, decide_eq_true_eq,
      if_neg hoff, if_neg hnr2]
    refine ⟨by simp, by simp, fun hm hr => ?_⟩
    simp [inactivity_step_reset, hm, hr]

theorem analyze_not_ready_updates_witness :
    ¬ frame_ready st_c10 frame_lm ∧
    ((analyze st_c10 frame_lm (sample_angles 50 100) 100).1.min_knee_angle_this_rep
       = min st_c10.min_knee_angle_this_rep
           (select_side (sample_angles 50 100)).knee_angle ∧
     (analyze st_c10 frame_lm (sample_angles 50 100) 100).2.feedback_message
       = "Position full body in frame" ∧
     ((¬ |(select_side (sample_angles 50 100)).knee_vertical
           - st_c10.last_knee_vertical| > 3) →
       (100 : ℚ) - st_c10.last_active_time > st_c10.config.inactive_thresh →
       (analyze st_c10 frame_lm (sample_angles 50 100) 100).1.correct_count = 0 ∧
       (analyze st_c10 frame_lm (sample_angles 50 100) 100).1.incorrect_count = 0 ∧
       (analyze st_c10 frame_lm (sample_angles 50 100) 100).1.state_sequence = [])) :=
  ⟨by with_unfolding_all decide,
   analyze_not_ready_updates st_c10 frame_lm (sample_angles 50 100) 100
     (by decide) (by with_unfolding_all decide) (by with_unfolding_all decide)⟩

/-- C6 (amended): on every 33-landmark non-frontal frame the per-rep
minimum becomes the running minimum of itself and the frame's knee joint
angle, and it is reset to 180 exactly when a ready frame finalizes a rep by
changing the phase to Standing.  The inactivity reset clears the phase
history without resetting the per-rep minimum (see the counterexample). -/
theorem analyze_min_knee_tracking (st : TrainerState) (lm : List Landmark)
    (angles : FrameAngles) (t : ℚ)
    (hlen : ¬ lm.length < 33)
    (hoff : ¬ angles.offset_angle > st.config.offset_thresh) :
    (analyze st lm angles t).1.min_knee_angle_this_rep =
      if frame_ready st lm ∧
          determine_state st.config (select_side angles).knee_vertical st.current_state
            = .s1Normal ∧
          st.current_state ≠ .s1Normal then 180
      else min st.min_knee_angle_this_rep (select_side angles).knee_angle := by
  unfold analyze
  rw [if_neg hlen]
  by_cases hv : (is_full_body_visible st.config lm).1
  case pos =>
    by_cases hrdy : frame_ready st lm
    · have hrdy2 : st.config.frames_required ≤ st.full_body_visible_count + 1 := by
        have h := hrdy; unfold frame_ready at h; simpa [hv] using h
      simp only [hv, if_true, if_false, Bool.false_eq_true, decide_eq_true_eq,
        if_neg hoff, if_pos hrdy2]
      by_cases hch : determine_state st.config (select_side angles).knee_vertical
          st.current_state = .s1Normal ∧ st.current_state ≠ .s1Normal
      · simp [transition_step_to_standing, hch.1, hch.2, hrdy]
      · simp [transition_step_min_of_not_standing, hch, hrdy]
    · have hnr2 : ¬ st.config.frames_required ≤ st.full_body_visible_count + 1 := by
        have h := hrdy; unfold frame_ready at h; simpa [hv] using h
      simp only [hv, if_true, if_false, Bool.false_eq_true, decide_eq_true_eq,
        if_neg hoff, if_neg hnr2]
      simp [hrdy]
  case neg =>
    by_cases hrdy : frame_ready st lm
    · have hrdy2 : st.config.frames_required ≤ 0 := by
        have h := hrdy; unfold frame_ready at h; simpa [hv] using h
      simp only [hv, if_true, if_false, Bool.false_eq_true, decide_eq_true_eq,
        if_neg hoff, if_pos hrdy2]
      by_cases hch : determine_state st.config (select_side angles).knee_vertical
          st.current_state = .s1Normal ∧ st.current_state ≠ .s1Normal
      · simp [transition_step_to_standing, hch.1, hch.2, hrdy]
      · simp [transition_step_min_of_not_standing, hch, hrdy]
    · have hnr2 : ¬ st.config.frames_required ≤ 0 := by
        have h := hrdy; unfold frame_ready at h; simpa [hv] using h
      simp only [hv, if_true, if_false, Bool.false_eq_true, decide_eq_true_eq,
        if_neg hoff, if_neg hnr2]
      simp [hrdy]

theorem analyze_min_knee_tracking_witness :
    ¬ frame_lm.length < 33 ∧
    ¬ (sample_angles 60 100).offset_angle > st_c1.config.offset_thresh ∧
    (analyze st_c1 frame_lm (sample_angles 60 100) 1).1.min_knee_angle_this_rep =
      (if frame_ready st_c1 frame_lm ∧
          determine_state st_c1.config
            (select_side (sample_angles 60 100)).knee_vertical st_c1.current_state
            = .s1Normal ∧
          st_c1.current_state ≠ .s1Normal then 180
      else min st_c1.min_knee_angle_this_rep
        (select_side (sample_angles 60 100)).knee_angle) :=
  ⟨by decide, by with_unfolding_all decide,
   analyze_min_knee_tracking st_c1 frame_lm (sample_angles 60 100) 1
     (by decide) (by with_unfolding_all decide)⟩

/-- C6 counterexample: an inactivity reset clears the phase history while
the per-rep minimum stays at 90, refuting that every history-clearing event
resets the per-rep minimum. -/
theorem inactivity_clears_history_keeps_min :
    st_c6cx.state_sequence ≠ [] ∧
    st_c6cx.min_knee_angle_this_rep = 90 ∧
    (analyze st_c6cx frame_lm (sample_angles 50 95) 100).1.state_sequence = [] ∧
    (analyze st_c6cx frame_lm (sample_angles 50 95) 100).1.min_knee_angle_this_rep = 90 := by
  with_unfolding_all decide

/-- C5 (amended): with both rep counters 0 and an empty depth-angle list,
the summary reports accuracy 0, form score 0, label "Needs Work" and
average and best depth 180.  (The counters can be 0 with a retained
depth-angle list after an inactivity reset: see the counterexample.) -/
theorem get_summary_zero_reps (st : TrainerState) (t : ℚ)
    (hc : st.correct_count = 0) (hi : st.incorrect_count = 0)
    (hd : st.depth_angles = []) :
    (get_summary st t).accuracy_percentage = 0 ∧
    (get_summary st t).form_score = 0 ∧
    (get_summary st t).form_label = "Needs Work" ∧
    (get_summary st t).average_depth_angle = 180 ∧
    (get_summary st t).best_depth_angle = 180 := by
  unfold get_summary calculate_form_score
  simp [hc, hi, hd]
  norm_num

theorem get_summary_zero_reps_witness :
    (initState PRO_CONFIG 0).correct_count = 0 ∧
    (initState PRO_CONFIG 0).incorrect_count = 0 ∧
    (initState PRO_CONFIG 0).depth_angles = [] ∧
    ((get_summary (initState PRO_CONFIG 0) 5).accuracy_percentage = 0 ∧
     (get_summary (initState PRO_CONFIG 0) 5).form_score = 0 ∧
     (get_summary (initState PRO_CONFIG 0) 5).form_label = "Needs Work" ∧
     (get_summary (initState PRO_CONFIG 0) 5).average_depth_angle = 180 ∧
     (get_summary (initState PRO_CONFIG 0) 5).best_depth_angle = 180) :=
  ⟨rfl, rfl, rfl, get_summary_zero_reps (initState PRO_CONFIG 0) 5 rfl rfl rfl⟩

set_option maxRecDepth 100000 in
/-- C5 counterexample: a session reaching zero counters through an
inactivity reset keeps its recorded depth angle, so the summary reports
average and best depth 90, not 180, while both counters are 0. -/
theorem zero_counters_summary_nonzero_depth :
    c5_final.correct_count = 0 ∧
    c5_final.incorrect_count = 0 ∧
    c5_final.depth_angles = [90] ∧
    (get_summary c5_final 31).average_depth_angle = 90 ∧
    (get_summary c5_final 31).best_depth_angle = 90 := by
  have hd : c5_final.depth_angles = [90] := by with_unfolding_all decide
  refine ⟨by with_unfolding_all decide, by with_unfolding_all decide, hd, ?_, ?_⟩ <;>
    · unfold get_summary
      simp [hd, list_min]

/-- C1 (code bug): a ready, non-frontal frame in phase Transition with
knee-vertical 60 (inside the lower-hips band) strictly above the previous
frame's 40, hip-vertical in band and no higher-priority rule firing,
returns no feedback instead of "lower your hips": `analyze` stores the
current knee-vertical into `last_knee_vertical` (source line 417) before
comparing against it (line 427), so the descending test is always false
and the lower-hips rule never fires. -/
theorem lower_hips_rule_never_fires :
    st_c1.current_state = .s2Transition ∧
    PRO_CONFIG.lower_hips_min ≤ 60 ∧ (60 : ℚ) ≤ PRO_CONFIG.lower_hips_max ∧
    (60 : ℚ) > st_c1.last_knee_vertical ∧
    (analyze st_c1 frame_lm (sample_angles 60 100) 1).2.is_ready = true ∧
    (analyze st_c1 frame_lm (sample_angles 60 100) 1).2.current_state = .s2Transition ∧
    (analyze st_c1 frame_lm (sample_angles 60 100) 1).2.knee_vertical_angle = 60 ∧
    (analyze st_c1 frame_lm (sample_angles 60 100) 1).2.hip_vertical_angle = 30 ∧
    (analyze st_c1 frame_lm (sample_angles 60 100) 1).2.ankle_vertical_angle = 10 ∧
    (analyze st_c1 frame_lm (sample_angles 60 100) 1).2.feedback_type = FeedbackType.none ∧
    (analyze st_c1 frame_lm (sample_angles 60 100) 1).2.feedback_message = "" := by
  with_unfolding_all decide

end SquatTrainer
